import Mathlib

/-
Verification of the `QueryBuilder` component of
`storage_service/locations/api/v3/drl/querybuilder.py`.

The translator models the JSON-decoded Python values that flow through the
query builder (`PyObj`), the Python exceptions that the builder raises and
catches (`PyExc`), the Django `Q` objects it produces (`QNode`), and the
builder's mutable error dictionary (`Errors`, threaded explicitly).  The
functions below mirror the methods of `QueryBuilder` one-for-one; the module
`locations.api.v3.utils` (Unicode normalization and ISO 8601 parsing) and the
Django model manager are external collaborators and are modelled from the
spec as an abstract environment `ConvEnv` and a record `QuerySet`.
-/

/-- A JSON-decodable Python value, as produced by `json.loads` and handed to
the query builder (None, bool, int, str, list, dict). -/
inductive PyObj where
  | none
  | pybool (b : Bool)
  | pyint (n : Int)
  | pystr (s : String)
  | pylist (xs : List PyObj)
  | pydict (entries : List (PyObj × PyObj))

mutual

/-- Structural size of a `PyObj`, used as the termination measure of the
recursive filter-expression evaluator. -/
def psize : PyObj → Nat
  | .pylist xs => psizeList xs + 1
  | .pydict xs => psizePairs xs + 1
  | _ => 1

def psizeList : List PyObj → Nat
  | [] => 0
  | x :: xs => psize x + psizeList xs

def psizePairs : List (PyObj × PyObj) → Nat
  | [] => 0
  | (k, v) :: xs => psize k + psize v + psizePairs xs

end

theorem psize_pos (q : PyObj) : 0 < psize q := by
  cases q <;> simp [psize]

mutual

/-- Python `==` on JSON-decodable values.  `True == 1` and `False == 0` hold,
as in Python; dict equality is modelled pairwise in declaration order (the
query builder never compares dicts). -/
def pyEq : PyObj → PyObj → Bool
  | .none, .none => true
  | .pybool a, .pybool b => a == b
  | .pybool a, .pyint n => (if a then (1 : Int) else 0) == n
  | .pyint n, .pybool a => n == (if a then (1 : Int) else 0)
  | .pyint a, .pyint b => a == b
  | .pystr a, .pystr b => a == b
  | .pylist a, .pylist b => pyEqList a b
  | .pydict a, .pydict b => pyEqPairs a b
  | _, _ => false

def pyEqList : List PyObj → List PyObj → Bool
  | [], [] => true
  | x :: xs, y :: ys => pyEq x y && pyEqList xs ys
  | _, _ => false

def pyEqPairs : List (PyObj × PyObj) → List (PyObj × PyObj) → Bool
  | [], [] => true
  | (k, v) :: xs, (k2, v2) :: ys => pyEq k k2 && pyEq v v2 && pyEqPairs xs ys
  | _, _ => false

end

/-- Python truthiness of a JSON-decodable value. -/
def pyTruthy : PyObj → Bool
  | .none => false
  | .pybool b => b
  | .pyint n => n != 0
  | .pystr s => s != ""
  | .pylist xs => !xs.isEmpty
  | .pydict m => !m.isEmpty

/-- Truthiness of a value read out of a schema attribute dict with `.get`:
Python `None` and the empty string are falsy. -/
def truthyOptStr : Option String → Bool
  | Option.none => false
  | some s => s != ""

/-- A single-quote character, used to build Python error message strings. -/
def squot : String := String.singleton (Char.ofNat 39)

/-- Python `str.lower()` restricted to ASCII, which covers every direction
token compared against `order_by_directions`. -/
def asciiLower (c : Char) : Char :=
  if 'A' ≤ c ∧ c ≤ 'Z' then Char.ofNat (c.toNat + 32) else c

def pyLower (s : String) : String := ⟨s.data.map asciiLower⟩

mutual

/-- Python `repr` of a JSON-decodable value (used by `str` on containers). -/
def pyRepr : PyObj → String
  | .none => "None"
  | .pybool b => if b then "True" else "False"
  | .pyint n => toString n
  | .pystr s => squot ++ s ++ squot
  | .pylist xs => "[" ++ pyReprList xs ++ "]"
  | .pydict m => "\x7b" ++ pyReprPairs m ++ "\x7d"

def pyReprList : List PyObj → String
  | [] => ""
  | [x] => pyRepr x
  | x :: rest => pyRepr x ++ ", " ++ pyReprList rest

def pyReprPairs : List (PyObj × PyObj) → String
  | [] => ""
  | [(k, v)] => pyRepr k ++ ": " ++ pyRepr v
  | (k, v) :: rest => pyRepr k ++ ": " ++ pyRepr v ++ ", " ++ pyReprPairs rest

end

/-- Python `str` of a JSON-decodable value. -/
def pyStr : PyObj → String
  | .pystr s => s
  | v => pyRepr v

/-- The Python type name of a value, as it appears in exception messages. -/
def pyTypeName : PyObj → String
  | .none => "NoneType"
  | .pybool _ => "bool"
  | .pyint _ => "int"
  | .pystr _ => "str"
  | .pylist _ => "list"
  | .pydict _ => "dict"

/-- The Python exceptions raised and caught inside the query builder. -/
inductive PyExc where
  | typeError (msg : String)
  | indexError (msg : String)
  | attributeError (msg : String)
  | keyError (msg : String)

/-- Python `str(type(exc))`, the error-dict key used by the malformed-query
handler in `_python2queryexpr`. -/
def excTypeStr : PyExc → String
  | .typeError _ => "<class " ++ squot ++ "TypeError" ++ squot ++ ">"
  | .indexError _ => "<class " ++ squot ++ "IndexError" ++ squot ++ ">"
  | .attributeError _ => "<class " ++ squot ++ "AttributeError" ++ squot ++ ">"
  | .keyError _ => "<class " ++ squot ++ "KeyError" ++ squot ++ ">"

/-- Python `str(exc)`. -/
def excMsg : PyExc → String
  | .typeError m => m
  | .indexError m => m
  | .attributeError m => m
  | .keyError m => m

def noneNotSubscriptableMsg : String :=
  squot ++ "NoneType" ++ squot ++ " object is not subscriptable"

def noneNoGetMsg : String :=
  squot ++ "NoneType" ++ squot ++ " object has no attribute " ++ squot ++ "get" ++ squot

/-- The instance attribute `self.errors`: a Python dict from string keys to
message strings, in insertion order. -/
abbrev Errors : Type := List (String × String)

/-- `self.errors[str(key)] = msg` (`QueryBuilder._add_to_errors`): overwrite
in place if the key is present, append otherwise. -/
def addErr (errs : Errors) (k v : String) : Errors :=
  if (errs.filter (fun p => p.1 = k)).isEmpty
  then errs ++ [(k, v)]
  else errs.map (fun p => if p.1 = k then (k, v) else p)

/-- Lookup in the error dict. -/
def errLookup (errs : Errors) (k : String) : Option String :=
  match errs with
  | [] => Option.none
  | (k2, v) :: rest => if k2 = k then some v else errLookup rest k

/-- Computations inside `QueryBuilder`: they thread the mutable `self.errors`
dict and may terminate by raising a Python exception (errors recorded before
the raise survive it, as instance state does in Python). -/
abbrev M (α : Type) : Type := Errors → Except PyExc α × Errors

/-- Ordered lookup in a literal string-keyed table. -/
def tlookup {β : Type} (s : String) : List (String × β) → Option β
  | [] => Option.none
  | (k2, v) :: rest => if s = k2 then some v else tlookup s rest

/-- Lookup in a string-keyed Python dict (the class-level tables) with a
`PyObj` key: unhashable keys (lists, dicts) raise `TypeError`, hashable
non-string keys are simply not found. -/
def strKeyGet {β : Type} (tbl : List (String × β)) (k : PyObj) : Except PyExc (Option β) :=
  match k with
  | .pylist _ => .error (.typeError ("unhashable type: " ++ squot ++ "list" ++ squot))
  | .pydict _ => .error (.typeError ("unhashable type: " ++ squot ++ "dict" ++ squot))
  | .pystr s => .ok (tlookup s tbl)
  | _ => .ok Option.none

/-- Python `tuple[i]` on the unpacked `*args` of `_get_simple_Q_expression`. -/
def tupleItem (xs : List PyObj) (i : Nat) : Except PyExc PyObj :=
  match xs.get? i with
  | some x => .ok x
  | Option.none => .error (.indexError "tuple index out of range")

/-- Python `dict[key]` lookup used by `query_as_list[0]` on a dict input;
comparison is Python `==`. -/
def dictGetEntry (k : PyObj) : List (PyObj × PyObj) → Option PyObj
  | [] => Option.none
  | (k2, v) :: rest => if pyEq k k2 then some v else dictGetEntry k rest

theorem dictGetEntry_psize {k : PyObj} : ∀ {m : List (PyObj × PyObj)} {v : PyObj},
    dictGetEntry k m = some v → psize v ≤ psizePairs m := by
  intro m
  induction m with
  | nil => intro v h; simp [dictGetEntry] at h
  | cons p rest ih =>
    intro v h
    obtain ⟨k2, v2⟩ := p
    simp only [dictGetEntry] at h
    split at h
    · cases h; simp [psizePairs]; have := psize_pos k2; omega
    · have := ih h; simp [psizePairs]; omega

/-- Python iteration (`for x in obj` / argument unpacking): lists yield their
items, strings their characters as one-character strings, dicts their keys;
other values raise `TypeError`. -/
def pyIterate : PyObj → Except PyExc (List PyObj)
  | .pylist xs => .ok xs
  | .pystr s => .ok (s.data.map (fun c => .pystr (String.singleton c)))
  | .pydict m => .ok (m.map Prod.fst)
  | v => .error (.typeError (squot ++ pyTypeName v ++ squot ++ " object is not iterable"))

/-- An entry of `QueryBuilder.schema`: the dict describing one attribute. -/
structure AttrDict where
  foreign_model : Option String := Option.none
  type_ : Option String := Option.none
  value_converter : Option String := Option.none

/-- `QueryBuilder.relations`: the default relation table; values are the
optional `alias` entry of each relation dict. -/
def relations : List (String × Option String) :=
  [("exact", Option.none),
   ("=", some "exact"),
   ("ne", Option.none),
   ("!=", some "ne"),
   ("contains", Option.none),
   ("like", some "contains"),
   ("regex", Option.none),
   ("regexp", some "regex"),
   ("lt", Option.none),
   ("<", some "lt"),
   ("gt", Option.none),
   (">", some "gt"),
   ("lte", Option.none),
   ("<=", some "lte"),
   ("gte", Option.none),
   (">=", some "gte"),
   ("in", Option.none)]

/-- `QueryBuilder.foreign_model_relations`. -/
def foreign_model_relations : List (String × Option String) :=
  [("isnull", Option.none),
   ("=", some "isnull"),
   ("!=", some "isnull")]

/-- `QueryBuilder.order_by_directions`; values are the optional `alias`. -/
def order_by_directions : List (String × Option String) :=
  [("", Option.none),
   ("-", Option.none),
   ("desc", some "-"),
   ("descending", some "-"),
   ("asc", some ""),
   ("ascending", some "")]

def packageAttrs : List (String × AttrDict) :=
  [("uuid", {}),
   ("description", {}),
   ("origin_pipeline", { foreign_model := some "Pipeline", type_ := some "scalar" }),
   ("current_location", { foreign_model := some "Location", type_ := some "scalar" }),
   ("current_path", {}),
   ("pointer_file_location", { foreign_model := some "Location", type_ := some "scalar" }),
   ("pointer_file_path", {}),
   ("size", {}),
   ("encryption_key_fingerprint", {}),
   ("replicated_package", { foreign_model := some "Package", type_ := some "scalar" }),
   ("package_type", {}),
   ("replicas", { foreign_model := some "Package", type_ := some "collection" }),
   ("related_packages", { foreign_model := some "Package", type_ := some "collection" }),
   ("status", {}),
   ("misc_attributes", {})]

def locationAttrs : List (String × AttrDict) :=
  [("uuid", {}),
   ("space", { foreign_model := some "Space", type_ := some "scalar" }),
   ("purpose", {}),
   ("pipeline", { foreign_model := some "Pipeline", type_ := some "collection" }),
   ("relative_path", {}),
   ("description", {}),
   ("quota", {}),
   ("used", {}),
   ("enabled", {}),
   ("replicators", { foreign_model := some "Location", type_ := some "collection" }),
   ("masters", { foreign_model := some "Location", type_ := some "collection" })]

def spaceAttrs : List (String × AttrDict) :=
  [("uuid", {}),
   ("access_protocol", {}),
   ("size", {}),
   ("used", {}),
   ("path", {}),
   ("staging_path", {}),
   ("verified", {}),
   ("last_verified", { value_converter := some "_get_datetime_value" })]

def pipelineAttrs : List (String × AttrDict) :=
  [("uuid", {}),
   ("description", {}),
   ("remote_name", {}),
   ("api_username", {}),
   ("api_key", {}),
   ("enabled", {}),
   ("location_set", { foreign_model := some "Location", type_ := some "collection" })]

/-- `QueryBuilder.schema`. -/
def schema : List (String × List (String × AttrDict)) :=
  [("Package", packageAttrs),
   ("Location", locationAttrs),
   ("Space", spaceAttrs),
   ("Pipeline", pipelineAttrs)]

/-- Modelled from the spec: the environment standing in for the module
`locations.api.v3.utils`, which is not part of the supplied sources.
`normalize` is the Unicode (NFD) normalization applied to search strings;
the two parsers return a date/datetime object, or Python `None` when the
input is not a valid ISO 8601 string. -/
structure ConvEnv where
  normalize : String → String
  date_string2date : PyObj → PyObj
  datetime_string2datetime : PyObj → PyObj

/-- Modelled from the spec: a stand-in environment whose normalization is the
identity (NFD fixes the plain ASCII strings exercised here) and whose parsers
always fail. -/
def idEnv : ConvEnv :=
  { normalize := id
    date_string2date := fun _ => .none
    datetime_string2datetime := fun _ => .none }

def pyIsNone : PyObj → Bool
  | .none => true
  | _ => false

/-- `QueryBuilder._normalize.normalize_if_string`. -/
def normalizeIfString (env : ConvEnv) : PyObj → PyObj
  | .pystr s => .pystr (env.normalize s)
  | v => v

/-- `QueryBuilder._normalize`: normalize a string value, and the items of a
list value. -/
def pyNormalize (env : ConvEnv) (v : PyObj) : PyObj :=
  let v1 := normalizeIfString env v
  match v1 with
  | .pylist xs => .pylist (xs.map (normalizeIfString env))
  | _ => v1

/-- `QueryBuilder._get_date_value`. -/
def _get_date_value (env : ConvEnv) (v : PyObj) : Errors → PyObj × Errors := fun errs =>
  match v with
  | .none => (v, errs)
  | _ =>
    let date := env.date_string2date v
    if pyIsNone date then
      (date, addErr errs ("date " ++ pyStr v)
        "Date search parameters must be valid ISO 8601 date strings.")
    else (date, errs)

/-- `QueryBuilder._get_datetime_value`. -/
def _get_datetime_value (env : ConvEnv) (v : PyObj) : Errors → PyObj × Errors := fun errs =>
  match v with
  | .none => (v, errs)
  | _ =>
    let dt := env.datetime_string2datetime v
    if pyIsNone dt then
      (dt, addErr errs ("datetime " ++ pyStr v)
        "Datetime search parameters must be valid ISO 8601 datetime strings.")
    else (dt, errs)

/-- The value-converter methods reachable through `getattr(self, name, None)`
from a schema `value_converter` entry. -/
inductive ConvKind where
  | dateConv
  | datetimeConv

/-- `getattr(self, value_converter_name, None)`. -/
def convOfName : String → Option ConvKind
  | "_get_date_value" => some .dateConv
  | "_get_datetime_value" => some .datetimeConv
  | _ => Option.none

def runConv (env : ConvEnv) : ConvKind → PyObj → Errors → PyObj × Errors
  | .dateConv => _get_date_value env
  | .datetimeConv => _get_datetime_value env

/-- Converter applied elementwise to a list value
(`[value_converter(li) for li in value]`). -/
def convList (env : ConvEnv) (ck : ConvKind) : List PyObj → Errors → List PyObj × Errors
  | [], errs => ([], errs)
  | x :: rest, errs =>
    let (y, errs1) := runConv env ck x errs
    let (ys, errs2) := convList env ck rest errs1
    (y :: ys, errs2)

/-- `QueryBuilder._get_model_name`: always return the model name; record an
error if it is not a key of the schema (`model_name not in self.schema`). -/
def _get_model_name (m : PyObj) : M PyObj := fun errs =>
  match strKeyGet schema m with
  | .error e => (.error e, errs)
  | .ok mt =>
    if mt.isNone then
      (.ok m, addErr errs (pyStr m)
        ("Searching on the " ++ pyStr m ++ " model is not permitted"))
    else (.ok m, errs)

/-- `QueryBuilder._get_attribute_dict`:
`self.schema.get(model_name, {}).get(attribute_name, None)`, optionally
recording an error when the result is `None`. -/
def _get_attribute_dict (a m : PyObj) (report_error : Bool) : M (Option AttrDict) := fun errs =>
  match strKeyGet schema m with
  | .error e => (.error e, errs)
  | .ok mt =>
    match strKeyGet (mt.getD []) a with
    | .error e => (.error e, errs)
    | .ok d =>
      if d.isNone && report_error then
        (.ok d, addErr errs (pyStr m ++ "." ++ pyStr a)
          ("Searching on " ++ pyStr m ++ "." ++ pyStr a ++ " is not permitted"))
      else (.ok d, errs)

/-- `QueryBuilder._get_attribute_name`: return the attribute name, recording
an error when it is not in the schema for the model. -/
def _get_attribute_name (a m : PyObj) : M PyObj := fun errs =>
  match _get_attribute_dict a m true errs with
  | (.ok _, errs1) => (.ok a, errs1)
  | (.error e, errs1) => (.error e, errs1)

/-- `QueryBuilder._get_attribute_model_name`: the `foreign_model` entry of the
attribute dict; a missing entry (`KeyError`) records the many-to-one error and
returns `None`; an invalid attribute (`None['foreign_model']`) raises
`TypeError`. -/
def _get_attribute_model_name (a m : PyObj) : M PyObj := fun errs =>
  match _get_attribute_dict a m false errs with
  | (.error e, errs1) => (.error e, errs1)
  | (.ok d, errs1) =>
    match d with
    | Option.none => (.error (.typeError noneNotSubscriptableMsg), errs1)
    | some ad =>
      match ad.foreign_model with
      | some fm => (.ok (.pystr fm), errs1)
      | Option.none =>
        (.ok .none, addErr errs1 (pyStr m ++ "." ++ pyStr a)
          ("The " ++ pyStr a ++ " attribute of the " ++ pyStr m ++
           " model does not represent a many-to-one relation."))

/-- `QueryBuilder._get_attribute_relations`: the relation table governing the
attribute (`foreign_model_relations` for foreign-model attributes, otherwise
`relations`); `None` when the attribute dict is `None` (caught
`AttributeError`). -/
def _get_attribute_relations (a m : PyObj) : M (Option (List (String × Option String))) := fun errs =>
  match _get_attribute_dict a m false errs with
  | (.error e, errs1) => (.error e, errs1)
  | (.ok d, errs1) =>
    match d with
    | some ad =>
      (.ok (some (if truthyOptStr ad.foreign_model then foreign_model_relations else relations)),
       errs1)
    | Option.none => (.ok Option.none, errs1)

/-- `QueryBuilder._get_relation_dict`: look the relation up in the attribute's
relation table, optionally recording a not-permitted error on failure. -/
def _get_relation_dict (r m a : PyObj) (report_error : Bool) : M (Option (Option String)) := fun errs =>
  match _get_attribute_relations a m errs with
  | (.error e, errs1) => (.error e, errs1)
  | (.ok tbl, errs1) =>
    let looked : Except PyExc (Option (Option String)) :=
      match tbl with
      | some t => strKeyGet t r
      | Option.none => .ok Option.none
    match looked with
    | .error e => (.error e, errs1)
    | .ok rd =>
      if rd.isNone && report_error then
        (.ok rd, addErr errs1 (pyStr m ++ "." ++ pyStr a ++ "." ++ pyStr r)
          ("The relation " ++ pyStr r ++ " is not permitted for " ++
           pyStr m ++ "." ++ pyStr a))
      else (.ok rd, errs1)

/-- `QueryBuilder._get_relation_name`: the relation's alias if declared, else
the relation name itself; `None` when the relation dict is `None` (caught
`AttributeError`). -/
def _get_relation_name (r m a : PyObj) : M PyObj := fun errs =>
  match _get_relation_dict r m a true errs with
  | (.error e, errs1) => (.error e, errs1)
  | (.ok rd, errs1) =>
    match rd with
    | some al => (.ok (match al with | some s => .pystr s | Option.none => r), errs1)
    | Option.none => (.ok .none, errs1)

/-- `QueryBuilder._get_value_converter`: the converter method named by the
attribute dict's `value_converter` entry, or `None`. -/
def _get_value_converter (a m : PyObj) : M (Option ConvKind) := fun errs =>
  match _get_attribute_dict a m false errs with
  | (.error e, errs1) => (.error e, errs1)
  | (.ok d, errs1) =>
    match d with
    | some ad => (.ok (convOfName (ad.value_converter.getD "")), errs1)
    | Option.none => (.ok Option.none, errs1)

/-- `QueryBuilder._get_value`: Unicode-normalize the value, apply the
attribute's value converter if any, and translate `None` to the `isnull`
boolean when the attribute is a foreign-model reference and the raw relation
was `=` or `!=`.  When the attribute dict is `None`, the access
`attribute_dict.get('foreign_model')` raises `AttributeError`. -/
def _get_value (env : ConvEnv) (v : PyObj) (m a relation_name : PyObj) : M PyObj := fun errs =>
  let v1 := pyNormalize env v
  match _get_value_converter a m errs with
  | (.error e, errs1) => (.error e, errs1)
  | (.ok ck, errs1) =>
    let conv : PyObj × Errors :=
      match ck with
      | some c =>
        match v1 with
        | .pylist xs =>
          let (ys, errs2) := convList env c xs errs1
          (.pylist ys, errs2)
        | _ => runConv env c v1 errs1
      | Option.none => (v1, errs1)
    match _get_attribute_dict a m false conv.2 with
    | (.error e, errs3) => (.error e, errs3)
    | (.ok d, errs3) =>
      match d with
      | Option.none => (.error (.attributeError noneNoGetMsg), errs3)
      | some ad =>
        let v3 :=
          if truthyOptStr ad.foreign_model && pyTruthy relation_name && pyIsNone conv.1 then
            if pyEq relation_name (.pystr "=") then .pybool true
            else if pyEq relation_name (.pystr "!=") then .pybool false
            else conv.1
          else conv.1
        (.ok v3, errs3)

/-- A Django `Q`/`Node` tree, as inspected by the repository's tests: a node
carries a connector (`AND`/`OR`), a negation flag and a list of children; a
child is either a `(lookup-key, value)` pair or a sub-node. -/
inductive QNode where
  | kv (key : String) (value : PyObj)
  | node (connector : String) (negated : Bool) (children : List QNode)

mutual

/-- Structural equality of `Q` trees, used for the duplicate-child check in
`Node.add`. -/
def qEq : QNode → QNode → Bool
  | .kv k v, .kv k2 v2 => k == k2 && pyEq v v2
  | .node c n ch, .node c2 n2 ch2 => c == c2 && (n == n2) && qEqList ch ch2
  | _, _ => false

def qEqList : List QNode → List QNode → Bool
  | [], [] => true
  | x :: xs, y :: ys => qEq x y && qEqList xs ys
  | _, _ => false

end

/-- `bool()` of a `Q` object: true when it has children. -/
def qTruthy : QNode → Bool
  | .node _ _ children => !children.isEmpty
  | .kv _ _ => true

def qMem (q : QNode) : List QNode → Bool
  | [] => false
  | x :: rest => qEq q x || qMem q rest

/-- Django `Node.add(data, conn_type)` in value-passing style: returns the
updated parent node. Children of an un-negated node with the same connector
(or a single child) are squashed into the parent. -/
def qAdd (parent data : QNode) (conn : String) : QNode :=
  match parent with
  | .kv k v => .kv k v
  | .node pc pneg pchildren =>
    if qMem data pchildren then .node pc pneg pchildren
    else if pc = conn then
      match data with
      | .node dc dneg dchildren =>
        if !dneg && (dc == conn || dchildren.length == 1)
        then .node pc pneg (pchildren ++ dchildren)
        else .node pc pneg (pchildren ++ [data])
      | .kv k v => .node pc pneg (pchildren ++ [.kv k v])
    else
      .node conn pneg [.node pc pneg pchildren, data]

/-- Django `Q._combine(other, conn)` as invoked by `operator.and_` and
`operator.or_` over the results of `_python2queryexpr`: a `None` operand
raises `TypeError`, an empty operand is dropped. -/
def qCombine (conn : String) (a b : Option QNode) : Except PyExc QNode :=
  match a with
  | Option.none =>
    .error (.typeError ("unsupported operand type(s) for " ++
      (if conn = "AND" then "&" else "|") ++ ": " ++ squot ++ "NoneType" ++ squot ++
      " and " ++ squot ++ "Q" ++ squot))
  | some qa =>
    match b with
    | Option.none => .error (.typeError "None")
    | some qb =>
      if !qTruthy qb then .ok qa
      else if !qTruthy qa then .ok qb
      else .ok (qAdd (qAdd (.node conn false []) qa conn) qb conn)

/-- `functools.reduce(op, results)` over the evaluated sub-expressions of an
`and`/`or` connective: empty input raises `TypeError`; a single element is
returned unchanged (even `None`). -/
def reduceQ (conn : String) : List (Option QNode) → Except PyExc (Option QNode)
  | [] => .error (.typeError "reduce() of empty iterable with no initial value")
  | x :: rest => go x rest
where
  go (acc : Option QNode) : List (Option QNode) → Except PyExc (Option QNode)
    | [] => .ok acc
    | y :: ys =>
      match qCombine conn acc y with
      | .ok z => go (some z) ys
      | .error e => .error e

/-- Django `Q.__invert__` applied to the result of a recursive evaluation:
`~None` raises `TypeError`; otherwise a fresh negated node absorbing the
operand per `Node.add`. -/
def qInvertOpt : Option QNode → Except PyExc QNode
  | Option.none => .error (.typeError ("bad operand type for unary ~: " ++
      squot ++ "NoneType" ++ squot))
  | some q =>
    .ok (match qAdd (.node "AND" false []) q "AND" with
         | .node c _ ch => .node c true ch
         | .kv k v => .kv k v)

/-- `QueryBuilder._get_Q_expression`:
`Q(**{'{}__{}'.format(attribute_name, relation_name): value})`. -/
def _get_Q_expression (attribute_name relation_name : PyObj) (value : PyObj) : QNode :=
  .node "AND" false [.kv (pyStr attribute_name ++ "__" ++ pyStr relation_name) value]

/-- `QueryBuilder._get_simple_Q_expression(*args)`: resolve the model, the
attribute (and for five-element terms the related model and its attribute),
the relation and the value, and build the `Q` leaf. -/
def _get_simple_Q_expression (env : ConvEnv) (args : List PyObj) : M QNode := fun errs =>
  match tupleItem args 0 with
  | .error e => (.error e, errs)
  | .ok arg0 =>
  match _get_model_name arg0 errs with
  | (.error e, errs1) => (.error e, errs1)
  | (.ok model_name, errs1) =>
  match tupleItem args 1 with
  | .error e => (.error e, errs1)
  | .ok arg1 =>
  match _get_attribute_name arg1 model_name errs1 with
  | (.error e, errs2) => (.error e, errs2)
  | (.ok attribute_name, errs2) =>
  if args.length = 4 then
    match tupleItem args 2 with
    | .error e => (.error e, errs2)
    | .ok arg2 =>
    match _get_relation_name arg2 model_name attribute_name errs2 with
    | (.error e, errs3) => (.error e, errs3)
    | (.ok relation_name, errs3) =>
    match tupleItem args 3 with
    | .error e => (.error e, errs3)
    | .ok arg3 =>
    match _get_value env arg3 model_name attribute_name arg2 errs3 with
    | (.error e, errs4) => (.error e, errs4)
    | (.ok value, errs4) =>
      (.ok (_get_Q_expression attribute_name relation_name value), errs4)
  else
    match _get_attribute_model_name attribute_name model_name errs2 with
    | (.error e, errs3) => (.error e, errs3)
    | (.ok attribute_model_name, errs3) =>
    match tupleItem args 2 with
    | .error e => (.error e, errs3)
    | .ok arg2 =>
    match _get_attribute_name arg2 attribute_model_name errs3 with
    | (.error e, errs4) => (.error e, errs4)
    | (.ok attribute_model_attribute_name, errs4) =>
    match tupleItem args 3 with
    | .error e => (.error e, errs4)
    | .ok arg3 =>
    match _get_relation_name arg3 attribute_model_name attribute_model_attribute_name errs4 with
    | (.error e, errs5) => (.error e, errs5)
    | (.ok relation_name, errs5) =>
    match tupleItem args 4 with
    | .error e => (.error e, errs5)
    | .ok arg4 =>
    match _get_value env arg4 attribute_model_name attribute_model_attribute_name arg3 errs5 with
    | (.error e, errs6) => (.error e, errs6)
    | (.ok value, errs6) =>
      let attribute_name2 : PyObj :=
        .pystr (pyStr attribute_name ++ "__" ++ pyStr attribute_model_attribute_name)
      (.ok (_get_Q_expression attribute_name2 relation_name value), errs6)

/-- The simple-term branch of `_python2queryexpr` lifted to the optional
result type of the recursive evaluator. -/
def simpleEval (env : ConvEnv) (args : List PyObj) : M (Option QNode) := fun errs =>
  match _get_simple_Q_expression env args errs with
  | (.ok q, errs1) => (.ok (some q), errs1)
  | (.error e, errs1) => (.error e, errs1)

/-- The `except (TypeError, IndexError, AttributeError)` handler of
`_python2queryexpr`: record the malformed-query error plus the exception
detail and return `None`; any other exception (`KeyError`) propagates. -/
def catchMalformed (r : Except PyExc (Option QNode) × Errors) : Except PyExc (Option QNode) × Errors :=
  match r with
  | (.ok q, errs) => (.ok q, errs)
  | (.error e, errs) =>
    match e with
    | .keyError m => (.error (.keyError m), errs)
    | _ =>
      (.ok Option.none,
       addErr (addErr errs "Malformed query error" "The submitted query was malformed")
         (excTypeStr e) (excMsg e))

theorem psizeList_map_fst_le (m : List (PyObj × PyObj)) :
    psizeList (m.map Prod.fst) ≤ psizePairs m := by
  induction m with
  | nil => simp [psizeList, psizePairs]
  | cons p rest ih =>
    obtain ⟨k, v⟩ := p
    simp [psizeList, psizePairs]
    have := psize_pos v
    omega

/-- `_python2queryexpr` restricted to the elements produced by iterating a
string: one-character strings never match a connective keyword, so the
evaluation is non-recursive. -/
def charItemEval (env : ConvEnv) (e : PyObj) : M (Option QNode) := fun errs =>
  catchMalformed
    (match e with
     | .pystr s =>
       match s.data with
       | [] => (.error (.indexError "string index out of range"), errs)
       | _ :: _ => simpleEval env (s.data.map (fun c => .pystr (String.singleton c))) errs
     | v => (.error (.typeError (squot ++ pyTypeName v ++ squot ++ " object is not subscriptable")), errs))

/-- Elementwise evaluation for string operands of `and`/`or`. -/
def charElems (env : ConvEnv) : List PyObj → M (List (Option QNode)) := fun ys errs =>
  match ys with
  | [] => (.ok [], errs)
  | y :: rest =>
    match charItemEval env y errs with
    | (.ok r, errs1) =>
      match charElems env rest errs1 with
      | (.ok rs, errs2) => (.ok (r :: rs), errs2)
      | (.error e, errs2) => (.error e, errs2)
    | (.error e, errs1) => (.error e, errs1)

mutual

/-- `QueryBuilder._python2queryexpr`: the recursive translation of a filter
expression into a `Q` object.  `query_as_list[0]` dispatches between the
`and`/`or` reduction, the `not` inversion and the simple-term branch;
`TypeError`, `IndexError` and `AttributeError` raised anywhere inside are
converted into the malformed-query errors and a `None` result.  Strings index
and unpack into one-character strings, which never match a connective keyword,
so they always take the simple branch; dicts index by the keys `0` and `1`
(raising `KeyError` when absent, which is not caught) and unpack into their
keys; other values raise `TypeError` at the first subscript. -/
def _python2queryexpr (env : ConvEnv) (q : PyObj) : M (Option QNode) := fun errs =>
  catchMalformed
    (match q with
     | .pylist xs =>
       match xs with
       | [] => (.error (.indexError "list index out of range"), errs)
       | q0 :: rest =>
         if pyEq q0 (.pystr "and") || pyEq q0 (.pystr "or") then
           match rest with
           | [] => (.error (.indexError "list index out of range"), errs)
           | q1 :: _ => connectiveEval env (if pyEq q0 (.pystr "and") then "AND" else "OR") q1 errs
         else if pyEq q0 (.pystr "not") then
           match rest with
           | [] => (.error (.indexError "list index out of range"), errs)
           | q1 :: _ =>
             match _python2queryexpr env q1 errs with
             | (.ok r, errs1) =>
               (match qInvertOpt r with
                | .ok qn => .ok (some qn)
                | .error e => .error e, errs1)
             | (.error e, errs1) => (.error e, errs1)
         else
           simpleEval env xs errs
     | .pystr s =>
       match s.data with
       | [] => (.error (.indexError "string index out of range"), errs)
       | _ :: _ => simpleEval env (s.data.map (fun c => .pystr (String.singleton c))) errs
     | .pydict m =>
       match hf0 : dictGetEntry (.pyint 0) m with
       | Option.none => (.error (.keyError (pyRepr (.pyint 0))), errs)
       | some v0 =>
         if pyEq v0 (.pystr "and") || pyEq v0 (.pystr "or") then
           match hf1 : dictGetEntry (.pyint 1) m with
           | Option.none => (.error (.keyError (pyRepr (.pyint 1))), errs)
           | some v1 => connectiveEval env (if pyEq v0 (.pystr "and") then "AND" else "OR") v1 errs
         else if pyEq v0 (.pystr "not") then
           match hf2 : dictGetEntry (.pyint 1) m with
           | Option.none => (.error (.keyError (pyRepr (.pyint 1))), errs)
           | some v1 =>
             match _python2queryexpr env v1 errs with
             | (.ok r, errs1) =>
               (match qInvertOpt r with
                | .ok qn => .ok (some qn)
                | .error e => .error e, errs1)
             | (.error e, errs1) => (.error e, errs1)
         else
           simpleEval env (m.map Prod.fst) errs
     | v => (.error (.typeError (squot ++ pyTypeName v ++ squot ++ " object is not subscriptable")), errs))
termination_by 3 * psize q
decreasing_by
  all_goals simp [psize, psizeList, psizePairs]
  all_goals try omega
  all_goals (try (have hb := dictGetEntry_psize hf0; omega))
  all_goals (try (have hb := dictGetEntry_psize hf1; omega))
  all_goals (have hb := dictGetEntry_psize hf2; omega)

/-- The `and`/`or` branch of `_python2queryexpr`:
`functools.reduce(op, [self._python2queryexpr(x) for x in query_as_list[1]])`.
The comprehension iterates `query_as_list[1]` (list items, string characters,
or dict keys; anything else raises `TypeError`), then the reduction combines
the results. One-character string elements never recurse, so they are
evaluated by the non-recursive simple branch directly. -/
def connectiveEval (env : ConvEnv) (conn : String) (q1 : PyObj) : M (Option QNode) := fun errs =>
  match q1 with
  | .pylist ys =>
    match evalElems env ys errs with
    | (.ok results, errs1) => (reduceQ conn results, errs1)
    | (.error e, errs1) => (.error e, errs1)
  | .pystr s =>
    match charElems env (s.data.map (fun c => .pystr (String.singleton c))) errs with
    | (.ok results, errs1) => (reduceQ conn results, errs1)
    | (.error e, errs1) => (.error e, errs1)
  | .pydict m =>
    match evalElems env (m.map Prod.fst) errs with
    | (.ok results, errs1) => (reduceQ conn results, errs1)
    | (.error e, errs1) => (.error e, errs1)
  | v => (.error (.typeError (squot ++ pyTypeName v ++ squot ++ " object is not iterable")), errs)
termination_by 3 * psize q1 + 2
decreasing_by
  all_goals simp [psize, psizeList, psizePairs]
  all_goals (try omega)
  all_goals (have hb := psizeList_map_fst_le m; omega)

/-- Evaluation of the elements of an `and`/`or` operand list, left to right,
accumulating errors; a raised exception aborts the comprehension. -/
def evalElems (env : ConvEnv) (ys : List PyObj) : M (List (Option QNode)) := fun errs =>
  match ys with
  | [] => (.ok [], errs)
  | y :: rest =>
    match _python2queryexpr env y errs with
    | (.ok r, errs1) =>
      match evalElems env rest errs1 with
      | (.ok rs, errs2) => (.ok (r :: rs), errs2)
      | (.error e, errs2) => (.error e, errs2)
    | (.error e, errs1) => (.error e, errs1)
termination_by 3 * psizeList ys + 1
decreasing_by
  all_goals simp [psize, psizeList, psizePairs]
  all_goals try omega
  all_goals exact psize_pos _

end

/-- One directive of `_get_order_bys` after arity destructuring: compute the
order-by path, then resolve the direction through `order_by_directions`
(`KeyError` is caught and skips the directive; a non-string direction raises
`AttributeError` at `.lower()`; a non-string path raises `TypeError` at the
concatenation). Returns `none` when the directive is skipped. -/
def orderByStep (model_name : String) (ra a d : PyObj) : M (Option String) := fun errs =>
  let obRes : Except PyExc PyObj × Errors :=
    if pyTruthy ra then
      match _get_attribute_model_name ra (.pystr model_name) errs with
      | (.error e, errs1) => (.error e, errs1)
      | (.ok related_model_name, errs1) =>
        match _get_attribute_name a related_model_name errs1 with
        | (.error e, errs2) => (.error e, errs2)
        | (.ok attribute_name, errs2) =>
          match _get_attribute_name ra (.pystr model_name) errs2 with
          | (.error e, errs3) => (.error e, errs3)
          | (.ok related_attribute_name, errs3) =>
            (.ok (.pystr (pyStr related_attribute_name ++ "__" ++ pyStr attribute_name)), errs3)
    else
      match _get_attribute_name a (.pystr model_name) errs with
      | (.error e, errs1) => (.error e, errs1)
      | (.ok order_by, errs1) => (.ok order_by, errs1)
  match obRes with
  | (.error e, errs1) => (.error e, errs1)
  | (.ok order_by, errs1) =>
    match d with
    | .pystr ds =>
      match tlookup (pyLower ds) order_by_directions with
      | Option.none =>
        (.ok Option.none, addErr errs1 (pyStr d) "Unrecognized order by direction")
      | some al =>
        let direction := al.getD ds
        match order_by with
        | .pystr obs => (.ok (some (direction ++ obs)), errs1)
        | v =>
          (.error (.typeError ("can only concatenate str (not " ++
            "\x22" ++ pyTypeName v ++ "\x22" ++ ") to str")), errs1)
    | v =>
      (.error (.attributeError (squot ++ pyTypeName v ++ squot ++
        " object has no attribute " ++ squot ++ "lower" ++ squot)), errs1)

/-- The loop body of `_get_order_bys` over the iterated directives: non-list
directives and wrong arities record errors and are skipped; otherwise the
directive is destructured into (related attribute, attribute, direction). -/
def orderByLoop (model_name : String) : List PyObj → List String → M (List String) := fun elems acc errs =>
  match elems with
  | [] => (.ok acc, errs)
  | e :: rest =>
    match e with
    | .pylist items =>
      let stepRes : Except PyExc (Option String) × Errors :=
        match items with
        | [a] => orderByStep model_name .none a (.pystr "") errs
        | [a, d] => orderByStep model_name .none a d errs
        | [ra, a, d] => orderByStep model_name ra a d errs
        | _ =>
          (.ok Option.none, addErr errs (pyStr e)
            "Order by elements must be lists of 1, 2 or 3 elements")
      match stepRes with
      | (.error ex, errs1) => (.error ex, errs1)
      | (.ok (some entry), errs1) => orderByLoop model_name rest (acc ++ [entry]) errs1
      | (.ok Option.none, errs1) => orderByLoop model_name rest acc errs1
    | _ =>
      orderByLoop model_name rest acc
        (addErr errs (pyStr e) "Order by elements must be lists")

/-- `QueryBuilder._get_order_bys`: `None` yields the default `[primary_key]`;
otherwise the directives are iterated and translated, accumulating errors. -/
def _get_order_bys (model_name : String) (inp : PyObj) (primary_key : String) : M (List String) := fun errs =>
  match inp with
  | .none => (.ok [primary_key], errs)
  | _ =>
    match pyIterate inp with
    | .error e => (.error e, errs)
    | .ok elems => orderByLoop model_name elems [] errs

/-- `QueryBuilder.get_order_bys` (public): clears the errors, then runs the
private translator. -/
def get_order_bys (model_name : String) (inp : PyObj) (primary_key : String) :
    Except PyExc (List String) × Errors :=
  _get_order_bys model_name inp primary_key []

/-- `QueryBuilder.get_query_expression` (public): clears the errors, then
runs `_get_query_expression` (which is `_python2queryexpr`). -/
def get_query_expression (env : ConvEnv) (q : PyObj) : Except PyExc (Option QNode) × Errors :=
  _python2queryexpr env q []

/-- Modelled from the spec: the ORM query handle returned by the store
collaborator (`locations.models` is not part of the supplied sources).  It
records the target model, the filter predicates applied, and the ordering. -/
structure QuerySet where
  model : String
  filters : List (Option QNode)
  order : List String

/-- Modelled from the spec: `QueryBuilder._get_model_manager`, the entry
point into the external store (`getattr(models, self.model_name).objects`). -/
def _get_model_manager (model_name : String) : QuerySet :=
  { model := model_name, filters := [], order := [] }

/-- `query_set.filter(query_expression)`. -/
def QuerySet.filterBy (qs : QuerySet) (qe : Option QNode) : QuerySet :=
  { qs with filters := qs.filters ++ [qe] }

/-- `query_set.order_by(*order_bys)`. -/
def QuerySet.orderBy (qs : QuerySet) (obs : List String) : QuerySet :=
  { qs with order := obs }

/-- What `get_query_set` can raise: the structured `SearchParseError`
carrying the accumulated error dict, or an uncaught Python exception. -/
inductive QBError where
  | searchParse (errors : Errors)
  | py (e : PyExc)

/-- Python `dict.get(key)` on the top-level query dict: a non-dict receiver
raises `AttributeError`. -/
def pyDictGet (d : PyObj) (k : String) : Except PyExc PyObj :=
  match d with
  | .pydict m => .ok ((dictGetEntry (.pystr k) m).getD .none)
  | v => .error (.attributeError (squot ++ pyTypeName v ++ squot ++
      " object has no attribute " ++ squot ++ "get" ++ squot))

/-- `QueryBuilder.get_query_set`: clear the errors, build the filter
expression and the order-bys (both accumulate into the same error dict),
raise `SearchParseError` with a copy of the errors (clearing them first) if
any were recorded, and otherwise apply the filter and the ordering to the
model manager. -/
def get_query_set (env : ConvEnv) (model_name primary_key : String) (query_as_dict : PyObj) :
    Except QBError QuerySet × Errors :=
  let errs0 : Errors := []
  match pyDictGet query_as_dict "filter" with
  | .error e => (.error (.py e), errs0)
  | .ok filterVal =>
    match _python2queryexpr env filterVal errs0 with
    | (.error e, errs1) => (.error (.py e), errs1)
    | (.ok query_expression, errs1) =>
      match pyDictGet query_as_dict "order_by" with
      | .error e => (.error (.py e), errs1)
      | .ok orderByVal =>
        match _get_order_bys model_name orderByVal primary_key errs1 with
        | (.error e, errs2) => (.error (.py e), errs2)
        | (.ok order_bys, errs2) =>
          if errs2.isEmpty then
            (.ok (((_get_model_manager model_name).filterBy query_expression).orderBy order_bys),
             errs2)
          else
            (.error (.searchParse errs2), [])

/-- `_python2queryexpr` on a list whose head is not a connective keyword
dispatches to the simple-term branch inside the malformed-query handler. -/
theorem p2qe_noconn (env : ConvEnv) (q0 : PyObj) (rest : List PyObj) (errs : Errors)
    (h1 : pyEq q0 (.pystr "and") = false)
    (h2 : pyEq q0 (.pystr "or") = false)
    (h3 : pyEq q0 (.pystr "not") = false) :
    _python2queryexpr env (.pylist (q0 :: rest)) errs
      = catchMalformed (simpleEval env (q0 :: rest) errs) := by
  unfold _python2queryexpr
  simp [h1, h2, h3]

/-- A model name found in the schema is one of the four declared models. -/
theorem schema_model_cases {m : String} {mt : List (String × AttrDict)}
    (hm : tlookup m schema = some mt) :
    m = "Package" ∨ m = "Location" ∨ m = "Space" ∨ m = "Pipeline" := by
  simp only [schema, tlookup] at hm
  split_ifs at hm <;> simp_all

/-- A simple term whose model name is registered in the schema is evaluated
by the simple-term branch (no schema model is a connective keyword). -/
theorem p2qe_schema_term (env : ConvEnv) {m : String} (rest : List PyObj) (errs : Errors)
    {mt : List (String × AttrDict)} (hm : tlookup m schema = some mt) :
    _python2queryexpr env (.pylist (.pystr m :: rest)) errs
      = catchMalformed (simpleEval env (.pystr m :: rest) errs) := by
  have hcases := schema_model_cases hm
  apply p2qe_noconn <;>
    (simp only [pyEq]; rcases hcases with h | h | h | h <;> subst h <;> decide)

/-- `_add_to_errors` makes the key readable with its message. -/
theorem errLookup_addErr (errs : Errors) (k v : String) :
    errLookup (addErr errs k v) k = some v := by
  induction errs with
  | nil => simp [addErr, errLookup]
  | cons p rest ih =>
    obtain ⟨k2, v2⟩ := p
    by_cases hk : k2 = k
    · subst hk
      simp [addErr, errLookup, List.filter]
    · simp only [addErr, List.filter, List.map] at ih ⊢
      by_cases hmem : (rest.filter (fun p => p.1 = k)).isEmpty
      · simp [hmem, hk, errLookup, Ne.symm hk] at ih ⊢
        exact ih
      · simp [hmem, hk, errLookup, Ne.symm hk] at ih ⊢
        simpa [addErr, hmem] using ih

/-- Normalization preserves being `None`. -/
theorem pyIsNone_pyNormalize (env : ConvEnv) (v : PyObj) :
    pyIsNone (pyNormalize env v) = pyIsNone v := by
  cases v <;> simp [pyNormalize, normalizeIfString, pyIsNone]

/-- Subscripting an empty dict raises an uncaught `KeyError`. -/
theorem p2qe_emptydict (env : ConvEnv) (errs : Errors) :
    _python2queryexpr env (.pydict []) errs = (.error (.keyError "0"), errs) := by
  unfold _python2queryexpr
  have h : toString (0 : Int) = "0" := rfl
  simp [dictGetEntry, catchMalformed, pyRepr, h]

/-- Evaluating the filter `None` records the malformed-query errors (caught
`TypeError`) and returns no predicate. -/
theorem p2qe_none (env : ConvEnv) (errs : Errors) :
    _python2queryexpr env .none errs
      = (.ok Option.none,
         addErr (addErr errs "Malformed query error" "The submitted query was malformed")
           (excTypeStr (.typeError "")) noneNotSubscriptableMsg) := by
  unfold _python2queryexpr
  simp [catchMalformed, excTypeStr, excMsg, pyTypeName, noneNotSubscriptableMsg]

/-- Modelled from the spec: the "(normalized, converted) value" of a simple
term -- Unicode normalization followed by the attribute's declared value
converter, when there is one. -/
def specC1Value (env : ConvEnv) (m a : String) (v : PyObj) (errs : Errors) : PyObj × Errors :=
  let v1 := pyNormalize env v
  match (tlookup m schema).bind (tlookup a) with
  | some d =>
    match convOfName (d.value_converter.getD "") with
    | some ck =>
      match v1 with
      | .pylist xs =>
        let p := convList env ck xs errs
        (.pylist p.1, p.2)
      | _ => runConv env ck v1 errs
    | Option.none => (v1, errs)
  | Option.none => (v1, errs)

/-- The value the evaluator finally stores in the leaf predicate: the
normalized/converted value, except that a foreign-model attribute whose
normalized value is `None` and whose raw relation is `=` or `!=` gets the
`isnull` boolean instead. -/
def c1FinalValue (d : AttrDict) (r : String) (v2 : PyObj) : PyObj :=
  if truthyOptStr d.foreign_model && (r != "") && pyIsNone v2 then
    if r == "=" then .pybool true
    else if r == "!=" then .pybool false
    else v2
  else v2

/-- Leaf shape of a registered four-element simple term. -/
theorem simple4_leaf_shape (env : ConvEnv) {m a r : String} {mt : List (String × AttrDict)}
    {d : AttrDict} {al : Option String}
    (hm : tlookup m schema = some mt)
    (ha : tlookup a mt = some d)
    (hr : tlookup r (if truthyOptStr d.foreign_model then foreign_model_relations
                     else relations) = some al)
    (v : PyObj) (errs : Errors) :
    _python2queryexpr env (.pylist [.pystr m, .pystr a, .pystr r, v]) errs
      = (.ok (some (.node "AND" false
          [.kv (a ++ "__" ++ al.getD r) (c1FinalValue d r (specC1Value env m a v errs).1)])),
         (specC1Value env m a v errs).2) := by
  rw [p2qe_schema_term env _ _ hm]
  cases hft : truthyOptStr d.foreign_model with
  | true =>
    rw [hft] at hr
    simp at hr
    simp [simpleEval, _get_simple_Q_expression, tupleItem, _get_model_name,
          _get_attribute_name, _get_attribute_dict, strKeyGet, hm, ha,
          _get_relation_name, _get_relation_dict, _get_attribute_relations, hft, hr,
          _get_value, _get_value_converter, convOfName,
          specC1Value, c1FinalValue, pyIsNone,
          pyTruthy, pyEq, pyStr, _get_Q_expression, catchMalformed]
    cases al with
    | none => try simp
    | some s => try simp
  | false =>
    rw [hft] at hr
    simp at hr
    simp [simpleEval, _get_simple_Q_expression, tupleItem, _get_model_name,
          _get_attribute_name, _get_attribute_dict, strKeyGet, hm, ha,
          _get_relation_name, _get_relation_dict, _get_attribute_relations, hft, hr,
          _get_value, _get_value_converter, convOfName,
          specC1Value, c1FinalValue, pyIsNone,
          pyTruthy, pyEq, pyStr, _get_Q_expression, catchMalformed]
    cases al with
    | none => try simp
    | some s => try simp

/-- Leaf shape of a registered five-element (related-attribute) simple term. -/
theorem simple5_leaf_shape (env : ConvEnv) {m ra a2 r : String}
    {mt mt2 : List (String × AttrDict)} {dra d2 : AttrDict} {fm : String} {al : Option String}
    (hm : tlookup m schema = some mt)
    (hra : tlookup ra mt = some dra)
    (hfm : dra.foreign_model = some fm)
    (hm2 : tlookup fm schema = some mt2)
    (ha2 : tlookup a2 mt2 = some d2)
    (hr : tlookup r (if truthyOptStr d2.foreign_model then foreign_model_relations
                     else relations) = some al)
    (v : PyObj) (errs : Errors) :
    _python2queryexpr env (.pylist [.pystr m, .pystr ra, .pystr a2, .pystr r, v]) errs
      = (.ok (some (.node "AND" false
          [.kv (ra ++ "__" ++ a2 ++ "__" ++ al.getD r)
               (c1FinalValue d2 r (specC1Value env fm a2 v errs).1)])),
         (specC1Value env fm a2 v errs).2) := by
  rw [p2qe_schema_term env _ _ hm]
  cases hft : truthyOptStr d2.foreign_model with
  | true =>
    rw [hft] at hr
    simp at hr
    simp [simpleEval, _get_simple_Q_expression, tupleItem, _get_model_name,
          _get_attribute_name, _get_attribute_dict, _get_attribute_model_name,
          strKeyGet, hm, hra, hfm, hm2, ha2,
          _get_relation_name, _get_relation_dict, _get_attribute_relations, hft, hr,
          _get_value, _get_value_converter, convOfName,
          specC1Value, c1FinalValue, pyIsNone,
          pyTruthy, pyEq, pyStr, _get_Q_expression, catchMalformed]
    cases al with
    | none => try simp
    | some s => try simp
  | false =>
    rw [hft] at hr
    simp at hr
    simp [simpleEval, _get_simple_Q_expression, tupleItem, _get_model_name,
          _get_attribute_name, _get_attribute_dict, _get_attribute_model_name,
          strKeyGet, hm, hra, hfm, hm2, ha2,
          _get_relation_name, _get_relation_dict, _get_attribute_relations, hft, hr,
          _get_value, _get_value_converter, convOfName,
          specC1Value, c1FinalValue, pyIsNone,
          pyTruthy, pyEq, pyStr, _get_Q_expression, catchMalformed]
    cases al with
    | none => try simp
    | some s => try simp

/-- C1 (counterexample): the claim as stated fails at the registered simple
term `["Package", "origin_pipeline", "=", None]`: the produced leaf carries
the isnull boolean `True`, not the Unicode-normalized (converter-applied)
value, which is `None`. -/
theorem C1_counterexample :
    (get_query_expression idEnv
        (.pylist [.pystr "Package", .pystr "origin_pipeline", .pystr "=", .none])
      = (.ok (some (.node "AND" false [.kv "origin_pipeline__isnull" (.pybool true)])), []))
    ∧ (specC1Value idEnv "Package" "origin_pipeline" .none []).1 = .none
    ∧ PyObj.pybool true ≠ PyObj.none := by
  refine ⟨?_, rfl, by simp⟩
  show _python2queryexpr idEnv _ [] = _
  rw [p2qe_schema_term idEnv _ _ (show tlookup "Package" schema = some packageAttrs from rfl)]
  rfl

/-- C1 (amended): for every simple term `[model, attr, relation, value]`
(resp. `[model, related_attr, attr, relation, value]`) whose model,
attribute(s) and relation are registered in the schema, evaluation produces a
leaf predicate whose field path is `attr` (resp. `related_attr__attr`), whose
relation operator is the alias-resolved canonical relation name, and whose
value is the Unicode-normalized, converter-applied value -- except that when
the attribute is a foreign-model reference, that value is `None`, and the raw
relation is `=` or `!=`, the value is the corresponding isnull boolean. -/
theorem C1_simple_term_leaf_shape :
    (∀ (env : ConvEnv) (m a r : String) (mt : List (String × AttrDict)) (d : AttrDict)
       (al : Option String) (v : PyObj) (errs : Errors),
       tlookup m schema = some mt →
       tlookup a mt = some d →
       tlookup r (if truthyOptStr d.foreign_model then foreign_model_relations
                  else relations) = some al →
       _python2queryexpr env (.pylist [.pystr m, .pystr a, .pystr r, v]) errs
         = (.ok (some (.node "AND" false
             [.kv (a ++ "__" ++ al.getD r) (c1FinalValue d r (specC1Value env m a v errs).1)])),
            (specC1Value env m a v errs).2))
    ∧ (∀ (env : ConvEnv) (m ra a2 r : String) (mt mt2 : List (String × AttrDict))
         (dra d2 : AttrDict) (fm : String) (al : Option String) (v : PyObj) (errs : Errors),
         tlookup m schema = some mt →
         tlookup ra mt = some dra →
         dra.foreign_model = some fm →
         tlookup fm schema = some mt2 →
         tlookup a2 mt2 = some d2 →
         tlookup r (if truthyOptStr d2.foreign_model then foreign_model_relations
                    else relations) = some al →
         _python2queryexpr env (.pylist [.pystr m, .pystr ra, .pystr a2, .pystr r, v]) errs
           = (.ok (some (.node "AND" false
               [.kv (ra ++ "__" ++ a2 ++ "__" ++ al.getD r)
                    (c1FinalValue d2 r (specC1Value env fm a2 v errs).1)])),
              (specC1Value env fm a2 v errs).2)) :=
  ⟨fun env _ _ _ _ _ _ v errs hm ha hr => simple4_leaf_shape env hm ha hr v errs,
   fun env _ _ _ _ _ _ _ _ _ _ v errs hm hra hfm hm2 ha2 hr =>
     simple5_leaf_shape env hm hra hfm hm2 ha2 hr v errs⟩

/-- C1 witness: `["Package","description","like","%a%"]` produces the leaf
`description__contains = "%a%"`, and
`["Package","origin_pipeline","description","regex","^[JS]"]` produces the
leaf `origin_pipeline__description__regex = "^[JS]"`. -/
theorem C1_simple_term_leaf_shape_witness :
    (_python2queryexpr idEnv
        (.pylist [.pystr "Package", .pystr "description", .pystr "like", .pystr "%a%"]) []
      = (.ok (some (.node "AND" false [.kv "description__contains" (.pystr "%a%")])), []))
    ∧ (_python2queryexpr idEnv
        (.pylist [.pystr "Package", .pystr "origin_pipeline", .pystr "description",
                  .pystr "regex", .pystr "^[JS]"]) []
      = (.ok (some (.node "AND" false
          [.kv "origin_pipeline__description__regex" (.pystr "^[JS]")])), [])) :=
  ⟨(C1_simple_term_leaf_shape.1 idEnv "Package" "description" "like" packageAttrs {}
      (some "contains") (.pystr "%a%") [] rfl rfl rfl).trans rfl,
   (C1_simple_term_leaf_shape.2 idEnv "Package" "origin_pipeline" "description" "regex"
      packageAttrs pipelineAttrs { foreign_model := some "Pipeline", type_ := some "scalar" }
      {} "Pipeline" Option.none (.pystr "^[JS]") [] rfl rfl rfl rfl rfl rfl).trans rfl⟩

/-- C2: for every foreign-model attribute, `[model, attr, "=", None]` yields
the leaf `attr__isnull = True` and `[model, attr, "!=", None]` yields
`attr__isnull = False`; and in `_get_value` the boolean translation happens
exactly when the raw relation is `=` or `!=` and the supplied raw value is
`None`. -/
theorem C2_foreign_null_translation :
    ∀ (env : ConvEnv) (m a : String) (mt : List (String × AttrDict)) (d : AttrDict)
      (fm : String) (errs : Errors),
      tlookup m schema = some mt →
      tlookup a mt = some d →
      d.foreign_model = some fm →
      fm ≠ "" →
      d.value_converter = Option.none →
      (_python2queryexpr env (.pylist [.pystr m, .pystr a, .pystr "=", .none]) errs
         = (.ok (some (.node "AND" false [.kv (a ++ "__" ++ "isnull") (.pybool true)])), errs))
      ∧ (_python2queryexpr env (.pylist [.pystr m, .pystr a, .pystr "!=", .none]) errs
         = (.ok (some (.node "AND" false [.kv (a ++ "__" ++ "isnull") (.pybool false)])), errs))
      ∧ (∀ (r : String) (v : PyObj),
          _get_value env v (.pystr m) (.pystr a) (.pystr r) errs
            = (.ok (if (r == "=") && pyIsNone v then .pybool true
                    else if (r == "!=") && pyIsNone v then .pybool false
                    else pyNormalize env v), errs)) := by
  intro env m a mt d fm errs hm ha hfm hne hc
  have hft : truthyOptStr d.foreign_model = true := by
    simp [hfm, truthyOptStr, hne]
  have hrq : tlookup "=" foreign_model_relations = some (some "isnull") := rfl
  have hrq2 : tlookup "!=" foreign_model_relations = some (some "isnull") := rfl
  refine ⟨?_, ?_, ?_⟩
  · rw [p2qe_schema_term env _ _ hm]
    simp [simpleEval, _get_simple_Q_expression, tupleItem, _get_model_name,
          _get_attribute_name, _get_attribute_dict, strKeyGet, hm, ha,
          _get_relation_name, _get_relation_dict, _get_attribute_relations, hft, hrq,
          _get_value, _get_value_converter, convOfName, hc,
          pyNormalize, normalizeIfString, pyIsNone,
          pyTruthy, pyEq, pyStr, pyRepr, _get_Q_expression, catchMalformed]
  · rw [p2qe_schema_term env _ _ hm]
    simp [simpleEval, _get_simple_Q_expression, tupleItem, _get_model_name,
          _get_attribute_name, _get_attribute_dict, strKeyGet, hm, ha,
          _get_relation_name, _get_relation_dict, _get_attribute_relations, hft, hrq2,
          _get_value, _get_value_converter, convOfName, hc,
          pyNormalize, normalizeIfString, pyIsNone,
          pyTruthy, pyEq, pyStr, pyRepr, _get_Q_expression, catchMalformed]
  · intro r v
    by_cases hv : pyIsNone v = true
    · have hvn : v = .none := by cases v <;> simp [pyIsNone] at hv ⊢
      subst hvn
      by_cases hre : (r == "=") = true
      · have : r = "=" := by simpa using hre
        subst this
        simp [_get_value, _get_value_converter, _get_attribute_dict, strKeyGet, hm, ha,
              convOfName, hc, hft, pyTruthy, pyEq, pyIsNone, pyNormalize, normalizeIfString]
      · by_cases hrne : (r == "!=") = true
        · have : r = "!=" := by simpa using hrne
          subst this
          simp [_get_value, _get_value_converter, _get_attribute_dict, strKeyGet, hm, ha,
                convOfName, hc, hft, pyTruthy, pyEq, pyIsNone, pyNormalize, normalizeIfString]
        · simp only [Bool.not_eq_true] at hre hrne
          by_cases hrt : r = ""
          · subst hrt
            simp [_get_value, _get_value_converter, _get_attribute_dict, strKeyGet, hm, ha,
                  convOfName, hc, hft, pyTruthy, pyEq, hre, hrne, pyIsNone,
                  pyNormalize, normalizeIfString]
          · simp [_get_value, _get_value_converter, _get_attribute_dict, strKeyGet, hm, ha,
                  convOfName, hc, hft, pyTruthy, pyEq, hre, hrne, hrt, pyIsNone,
                  pyNormalize, normalizeIfString]
    · simp only [Bool.not_eq_true] at hv
      simp [_get_value, _get_value_converter, _get_attribute_dict, strKeyGet, hm, ha,
            convOfName, hc, hft, pyTruthy, pyEq, hv, pyIsNone_pyNormalize,
            Bool.and_eq_true]

/-- C2 witness: `origin_pipeline` on `Package`: `= None` gives
`origin_pipeline__isnull = True`, `!= None` gives `False`, and a non-null
value under another relation is left untranslated. -/
theorem C2_foreign_null_translation_witness :
    (_python2queryexpr idEnv
        (.pylist [.pystr "Package", .pystr "origin_pipeline", .pystr "=", .none]) []
      = (.ok (some (.node "AND" false [.kv "origin_pipeline__isnull" (.pybool true)])), []))
    ∧ (_python2queryexpr idEnv
        (.pylist [.pystr "Package", .pystr "origin_pipeline", .pystr "!=", .none]) []
      = (.ok (some (.node "AND" false [.kv "origin_pipeline__isnull" (.pybool false)])), []))
    ∧ (_get_value idEnv (.pystr "x") (.pystr "Package") (.pystr "origin_pipeline")
        (.pystr "lt") [] = (.ok (.pystr "x"), [])) := by
  have h := C2_foreign_null_translation idEnv "Package" "origin_pipeline" packageAttrs
    { foreign_model := some "Pipeline", type_ := some "scalar" } "Pipeline" []
    rfl rfl rfl (by decide) rfl
  exact ⟨h.1.trans rfl, h.2.1.trans rfl, (h.2.2 "lt" (.pystr "x")).trans rfl⟩

/-- C3 (counterexample): the alias identity fails on the foreign-model
attribute `origin_pipeline`: `=` resolves to `isnull` while `exact` is not a
permitted relation there, so the two evaluations differ (in predicate and in
recorded errors). -/
theorem C3_counterexample :
    get_query_expression idEnv
        (.pylist [.pystr "Package", .pystr "origin_pipeline", .pystr "=", .none])
      ≠ get_query_expression idEnv
        (.pylist [.pystr "Package", .pystr "origin_pipeline", .pystr "exact", .none]) := by
  have e1 : get_query_expression idEnv
      (.pylist [.pystr "Package", .pystr "origin_pipeline", .pystr "=", .none])
      = (.ok (some (.node "AND" false [.kv "origin_pipeline__isnull" (.pybool true)])), []) := by
    show _python2queryexpr idEnv _ [] = _
    rw [p2qe_schema_term idEnv _ _ (show tlookup "Package" schema = some packageAttrs from rfl)]
    rfl
  have e2 : get_query_expression idEnv
      (.pylist [.pystr "Package", .pystr "origin_pipeline", .pystr "exact", .none])
      = (.ok (some (.node "AND" false [.kv "origin_pipeline__None" .none])),
         [("Package.origin_pipeline.exact",
           "The relation exact is not permitted for Package.origin_pipeline")]) := by
    show _python2queryexpr idEnv _ [] = _
    rw [p2qe_schema_term idEnv _ _ (show tlookup "Package" schema = some packageAttrs from rfl)]
    rfl
  rw [e1, e2]
  simp

/-- C3 (amended): on every attribute whose schema descriptor declares no
`foreign_model`, evaluating a simple term with relation `=` yields exactly
the same predicate and the same errors as with `exact`, and likewise `like`
versus `contains`; on foreign-model attributes `=` aliases to `isnull` and
`exact`/`like`/`contains` are not permitted, so the identity does not hold
there. -/
theorem C3_alias_identities_nonforeign :
    ∀ (env : ConvEnv) (m a : String) (mt : List (String × AttrDict)) (d : AttrDict)
      (v : PyObj) (errs : Errors),
      tlookup m schema = some mt →
      tlookup a mt = some d →
      d.foreign_model = Option.none →
      (_python2queryexpr env (.pylist [.pystr m, .pystr a, .pystr "=", v]) errs
         = _python2queryexpr env (.pylist [.pystr m, .pystr a, .pystr "exact", v]) errs)
      ∧ (_python2queryexpr env (.pylist [.pystr m, .pystr a, .pystr "like", v]) errs
         = _python2queryexpr env (.pylist [.pystr m, .pystr a, .pystr "contains", v]) errs) := by
  intro env m a mt d v errs hm ha hf
  have hft : truthyOptStr d.foreign_model = false := by simp [hf, truthyOptStr]
  have h1 : tlookup "=" relations = some (some "exact") := rfl
  have h2 : tlookup "exact" relations = some Option.none := rfl
  have h3 : tlookup "like" relations = some (some "contains") := rfl
  have h4 : tlookup "contains" relations = some Option.none := rfl
  constructor
  · rw [p2qe_schema_term env _ _ hm, p2qe_schema_term env _ _ hm]
    simp [simpleEval, _get_simple_Q_expression, tupleItem, _get_model_name,
          _get_attribute_name, _get_attribute_dict, strKeyGet, hm, ha,
          _get_relation_name, _get_relation_dict, _get_attribute_relations, hft, h1, h2,
          _get_value, _get_value_converter, convOfName,
          pyTruthy, pyEq, pyStr, _get_Q_expression, catchMalformed]
  · rw [p2qe_schema_term env _ _ hm, p2qe_schema_term env _ _ hm]
    simp [simpleEval, _get_simple_Q_expression, tupleItem, _get_model_name,
          _get_attribute_name, _get_attribute_dict, strKeyGet, hm, ha,
          _get_relation_name, _get_relation_dict, _get_attribute_relations, hft, h3, h4,
          _get_value, _get_value_converter, convOfName,
          pyTruthy, pyEq, pyStr, _get_Q_expression, catchMalformed]

/-- C3 witness: on `Package.description` the `=`/`exact` and
`like`/`contains` evaluations coincide. -/
theorem C3_alias_identities_nonforeign_witness :
    (_python2queryexpr idEnv
        (.pylist [.pystr "Package", .pystr "description", .pystr "=", .pystr "x"]) []
      = _python2queryexpr idEnv
        (.pylist [.pystr "Package", .pystr "description", .pystr "exact", .pystr "x"]) [])
    ∧ (_python2queryexpr idEnv
        (.pylist [.pystr "Package", .pystr "description", .pystr "like", .pystr "x"]) []
      = _python2queryexpr idEnv
        (.pylist [.pystr "Package", .pystr "description", .pystr "contains", .pystr "x"]) []) :=
  C3_alias_identities_nonforeign idEnv "Package" "description" packageAttrs {}
    (.pystr "x") [] rfl rfl rfl

/-- C4 (counterexample): the order-by directive
`["origin_pipeline", "monkey", "asc"]` records the `Pipeline.monkey` error
but still contributes the entry `origin_pipeline__monkey` to the returned
list, contrary to the claim that it contributes no entry. -/
theorem C4_counterexample :
    (get_order_bys "Package"
        (.pylist [.pylist [.pystr "origin_pipeline", .pystr "monkey", .pystr "asc"]]) "uuid"
      = (.ok ["origin_pipeline__monkey"],
         [("Pipeline.monkey", "Searching on Pipeline.monkey is not permitted")]))
    ∧ (["origin_pipeline__monkey"] : List String) ≠ [] :=
  ⟨rfl, by simp⟩

/-- C4 (amended): absent (`None`) directives return exactly `[primary_key]`;
`[["description","desc"]]` returns `["-description"]`;
`[["origin_pipeline","uuid","asc"]]` returns `["origin_pipeline__uuid"]`; a
directive with an invalid related-model sub-attribute such as
`["origin_pipeline","monkey","asc"]` records an error keyed
`Pipeline.monkey` and still contributes the entry `origin_pipeline__monkey`,
while every other valid directive in the same call produces its entry. -/
theorem C4_order_bys_behavior (pk : String) :
    (get_order_bys "Package" .none pk = (.ok [pk], []))
    ∧ (get_order_bys "Package" (.pylist [.pylist [.pystr "description", .pystr "desc"]]) pk
       = (.ok ["-description"], []))
    ∧ (get_order_bys "Package"
         (.pylist [.pylist [.pystr "origin_pipeline", .pystr "uuid", .pystr "asc"]]) pk
       = (.ok ["origin_pipeline__uuid"], []))
    ∧ (get_order_bys "Package"
         (.pylist [.pylist [.pystr "origin_pipeline", .pystr "monkey", .pystr "asc"],
                   .pylist [.pystr "description", .pystr "desc"]]) pk
       = (.ok ["origin_pipeline__monkey", "-description"],
          [("Pipeline.monkey", "Searching on Pipeline.monkey is not permitted")]))
    ∧ errLookup [("Pipeline.monkey", "Searching on Pipeline.monkey is not permitted")]
        "Pipeline.monkey" = some "Searching on Pipeline.monkey is not permitted" :=
  ⟨rfl, rfl, rfl, rfl, rfl⟩

/-- C5: evaluating `["Package","gonzo","like","%a%"]` (an attribute not
declared for `Package`) returns no predicate, and afterwards the error dict
maps `Package.gonzo` to the fixed not-permitted message and also contains the
`Malformed query error` key. -/
theorem C5_unknown_attribute_errors (env : ConvEnv) :
    (get_query_expression env
        (.pylist [.pystr "Package", .pystr "gonzo", .pystr "like", .pystr "%a%"])
      = (.ok Option.none,
         [("Package.gonzo", "Searching on Package.gonzo is not permitted"),
          ("Package.gonzo.like", "The relation like is not permitted for Package.gonzo"),
          ("Malformed query error", "The submitted query was malformed"),
          (excTypeStr (.attributeError ""), noneNoGetMsg)]))
    ∧ errLookup
        [("Package.gonzo", "Searching on Package.gonzo is not permitted"),
         ("Package.gonzo.like", "The relation like is not permitted for Package.gonzo"),
         ("Malformed query error", "The submitted query was malformed"),
         (excTypeStr (.attributeError ""), noneNoGetMsg)] "Package.gonzo"
      = some "Searching on Package.gonzo is not permitted"
    ∧ errLookup
        [("Package.gonzo", "Searching on Package.gonzo is not permitted"),
         ("Package.gonzo.like", "The relation like is not permitted for Package.gonzo"),
         ("Malformed query error", "The submitted query was malformed"),
         (excTypeStr (.attributeError ""), noneNoGetMsg)] "Malformed query error"
      = some "The submitted query was malformed" := by
  refine ⟨?_, by decide, by decide⟩
  show _python2queryexpr env _ [] = _
  rw [p2qe_schema_term env _ _ (show tlookup "Package" schema = some packageAttrs from rfl)]
  rfl

/-- C6: a simple term applying a non-permitted relation to a foreign-model
attribute records the error key `model.attr.relation` with the fixed
not-permitted message, and the evaluator still constructs and returns a
(possibly nonsensical) predicate -- keyed `attr__None` -- rather than letting
the `AttributeError` from the missing relation alias escape. -/
theorem C6_unpermitted_foreign_relation :
    ∀ (env : ConvEnv) (m a r : String) (mt : List (String × AttrDict)) (d : AttrDict)
      (fm : String) (v : PyObj) (errs : Errors),
      tlookup m schema = some mt →
      tlookup a mt = some d →
      d.foreign_model = some fm →
      fm ≠ "" →
      d.value_converter = Option.none →
      tlookup r foreign_model_relations = Option.none →
      (_python2queryexpr env (.pylist [.pystr m, .pystr a, .pystr r, v]) errs
         = (.ok (some (.node "AND" false [.kv (a ++ "__" ++ "None") (pyNormalize env v)])),
            addErr errs (m ++ "." ++ a ++ "." ++ r)
              ("The relation " ++ r ++ " is not permitted for " ++ m ++ "." ++ a)))
      ∧ errLookup
          (addErr errs (m ++ "." ++ a ++ "." ++ r)
            ("The relation " ++ r ++ " is not permitted for " ++ m ++ "." ++ a))
          (m ++ "." ++ a ++ "." ++ r)
        = some ("The relation " ++ r ++ " is not permitted for " ++ m ++ "." ++ a) := by
  intro env m a r mt d fm v errs hm ha hfm hne hc hr
  have hft : truthyOptStr d.foreign_model = true := by
    simp [hfm, truthyOptStr, hne]
  have hre : (r == "=") = false := by
    refine beq_eq_false_iff_ne.mpr ?_
    intro h; subst h; simp [foreign_model_relations, tlookup] at hr
  have hrne : (r == "!=") = false := by
    refine beq_eq_false_iff_ne.mpr ?_
    intro h; subst h; simp [foreign_model_relations, tlookup] at hr
  refine ⟨?_, errLookup_addErr _ _ _⟩
  rw [p2qe_schema_term env _ _ hm]
  simp [simpleEval, _get_simple_Q_expression, tupleItem, _get_model_name,
        _get_attribute_name, _get_attribute_dict, strKeyGet, hm, ha,
        _get_relation_name, _get_relation_dict, _get_attribute_relations, hft, hr,
        _get_value, _get_value_converter, convOfName, hc,
        pyTruthy, pyEq, hre, hrne, pyStr, pyRepr, _get_Q_expression, catchMalformed]

/-- C6 witness: `["Package","origin_pipeline","<",2]` records
`Package.origin_pipeline.<` with its fixed message and still returns the
nonsensical predicate `origin_pipeline__None = 2`. -/
theorem C6_unpermitted_foreign_relation_witness :
    (_python2queryexpr idEnv
        (.pylist [.pystr "Package", .pystr "origin_pipeline", .pystr "<", .pyint 2]) []
      = (.ok (some (.node "AND" false [.kv "origin_pipeline__None" (.pyint 2)])),
         [("Package.origin_pipeline.<",
           "The relation < is not permitted for Package.origin_pipeline")]))
    ∧ errLookup
        [("Package.origin_pipeline.<",
          "The relation < is not permitted for Package.origin_pipeline")]
        "Package.origin_pipeline.<"
      = some "The relation < is not permitted for Package.origin_pipeline" := by
  have h := C6_unpermitted_foreign_relation idEnv "Package" "origin_pipeline" "<"
    packageAttrs { foreign_model := some "Pipeline", type_ := some "scalar" } "Pipeline"
    (.pyint 2) [] rfl rfl rfl (by decide) rfl rfl
  exact ⟨h.1.trans rfl, h.2.trans rfl⟩

/-- C7: a JSON-object (dict) filter expression raises an uncaught `KeyError`
to the caller -- both through the public `get_query_expression` and through
`get_query_set` -- instead of the documented `SearchParseError`. -/
theorem C7_keyerror_escapes :
    (∀ env : ConvEnv, get_query_expression env (.pydict []) = (.error (.keyError "0"), []))
    ∧ (∀ (env : ConvEnv) (mn pk : String),
        get_query_set env mn pk (.pydict [(.pystr "filter", .pydict [])])
          = (.error (.py (.keyError "0")), [])) := by
  constructor
  · intro env
    show _python2queryexpr env _ [] = _
    rw [p2qe_emptydict]
  · intro env mn pk
    simp [get_query_set, pyDictGet, dictGetEntry, pyEq, p2qe_emptydict]

/-- C9 (counterexample): the claim fails at the input dict `{}` (no `filter`
key): `get_query_set` raises a `SearchParseError` carrying the
malformed-query errors instead of returning a query handle. -/
theorem C9_counterexample :
    get_query_set idEnv "Package" "uuid" (.pydict [])
      = (.error (.searchParse
          [("Malformed query error", "The submitted query was malformed"),
           (excTypeStr (.typeError ""), noneNotSubscriptableMsg)]), []) := by
  have h : addErr (addErr [] "Malformed query error" "The submitted query was malformed")
      (excTypeStr (.typeError "")) noneNotSubscriptableMsg
      = [("Malformed query error", "The submitted query was malformed"),
         (excTypeStr (.typeError ""), noneNotSubscriptableMsg)] := by decide
  simp [get_query_set, pyDictGet, dictGetEntry, pyEq, p2qe_none, h, _get_order_bys]

/-- C9 (amended): the `filter` key is not optional: for every input dict that
omits both `filter` and `order_by`, `get_query_set` raises a
`SearchParseError` whose error dict contains the `Malformed query error` key
(the missing filter evaluates as `None` and fails), and no query handle is
returned; only `order_by` is optional. -/
theorem C9_missing_filter_raises :
    ∀ (env : ConvEnv) (mn pk : String) (entries : List (PyObj × PyObj)),
      dictGetEntry (.pystr "filter") entries = Option.none →
      dictGetEntry (.pystr "order_by") entries = Option.none →
      get_query_set env mn pk (.pydict entries)
        = (.error (.searchParse
            [("Malformed query error", "The submitted query was malformed"),
             (excTypeStr (.typeError ""), noneNotSubscriptableMsg)]), []) := by
  intro env mn pk entries h1 h2
  have h : addErr (addErr [] "Malformed query error" "The submitted query was malformed")
      (excTypeStr (.typeError "")) noneNotSubscriptableMsg
      = [("Malformed query error", "The submitted query was malformed"),
         (excTypeStr (.typeError ""), noneNotSubscriptableMsg)] := by decide
  simp [get_query_set, pyDictGet, h1, h2, p2qe_none, h, _get_order_bys]

/-- C9 witness: the empty query dict. -/
theorem C9_missing_filter_raises_witness :
    get_query_set idEnv "Location" "uuid" (.pydict [])
      = (.error (.searchParse
          [("Malformed query error", "The submitted query was malformed"),
           (excTypeStr (.typeError ""), noneNotSubscriptableMsg)]), []) :=
  C9_missing_filter_raises idEnv "Location" "uuid" [] rfl rfl

/-- C8: if the filter evaluates cleanly (no errors) and the order-by
directives produce exactly one error entry, `get_query_set` raises a
`SearchParseError` whose error dict is exactly that one entry, returns no
query handle, and leaves the instance's error state cleared. -/
theorem C8_order_by_error_only :
    ∀ (env : ConvEnv) (mn pk : String) (f ob : PyObj) (qf : Option QNode)
      (obs : List String) (k msg : String),
      _python2queryexpr env f [] = (.ok qf, []) →
      _get_order_bys mn ob pk [] = (.ok obs, [(k, msg)]) →
      get_query_set env mn pk (.pydict [(.pystr "filter", f), (.pystr "order_by", ob)])
        = (.error (.searchParse [(k, msg)]), []) := by
  intro env mn pk f ob qf obs k msg h1 h2
  simp [get_query_set, pyDictGet, dictGetEntry, pyEq, h1, h2]

/-- C8 witness: a valid filter together with the invalid direction token
`up`; the raised error dict holds only the order-by error. -/
theorem C8_order_by_error_only_witness :
    get_query_set idEnv "Package" "uuid"
      (.pydict [(.pystr "filter",
                 .pylist [.pystr "Package", .pystr "description", .pystr "like", .pystr "%a%"]),
                (.pystr "order_by", .pylist [.pylist [.pystr "description", .pystr "up"]])])
      = (.error (.searchParse [("up", "Unrecognized order by direction")]), []) :=
  C8_order_by_error_only idEnv "Package" "uuid" _ _
    (some (.node "AND" false [.kv "description__contains" (.pystr "%a%")])) [] _ _
    (by rw [p2qe_schema_term idEnv _ _
              (show tlookup "Package" schema = some packageAttrs from rfl)]
        rfl)
    rfl

/-- C10: the default primary-key ordering applies only to absent (`None`)
directives; the explicitly empty directive list produces no sort keys at
all. -/
theorem C10_empty_order_by_no_default (pk : String) :
    (get_order_bys "Package" .none pk = (.ok [pk], []))
    ∧ (get_order_bys "Package" (.pylist []) pk = (.ok ([] : List String), [])) :=
  ⟨rfl, rfl⟩
